import Mathlib

/-!
Shallow embedding of the promotions service (`service/models.py`,
`service/routes.py`).  Python values that can sit in a model attribute or in a
JSON-like mapping are modelled by the dynamic type `PyVal`; exceptions are
modelled by `PyErr` and fallible code returns `Except PyErr _`.
-/

/-- Python `datetime.timedelta`, represented by its total number of seconds
(microseconds do not occur in this service). -/
structure Timedelta where
  seconds : Int
  deriving Repr, DecidableEq

/-- Python `datetime.date`. -/
structure PyDate where
  year : Nat
  month : Nat
  day : Nat
  deriving Repr, DecidableEq

/-- The `PromotionType` enum of `models.py` (three members). -/
inductive PromotionType
  | AMOUNT_DISCOUNT
  | PERCENTAGE_DISCOUNT
  | BUY_ONE_GET_ONE
  deriving Repr, DecidableEq

/-- The `.name` attribute of a `PromotionType` member. -/
def PromotionType.name : PromotionType → String
  | .AMOUNT_DISCOUNT => "AMOUNT_DISCOUNT"
  | .PERCENTAGE_DISCOUNT => "PERCENTAGE_DISCOUNT"
  | .BUY_ONE_GET_ONE => "BUY_ONE_GET_ONE"

/-- Enum member lookup `PromotionType[s]` by name, `none` for a `KeyError`. -/
def promotionTypeOfName (s : String) : Option PromotionType :=
  if s = "AMOUNT_DISCOUNT" then some .AMOUNT_DISCOUNT
  else if s = "PERCENTAGE_DISCOUNT" then some .PERCENTAGE_DISCOUNT
  else if s = "BUY_ONE_GET_ONE" then some .BUY_ONE_GET_ONE
  else Option.none

/-- Dynamic Python values that occur in Promotion attributes and in the
serialized mappings of this service. -/
inductive PyVal
  | pyNone
  | int (n : Int)
  | str (s : String)
  | bool (b : Bool)
  | date (d : PyDate)
  | enumV (t : PromotionType)
  | td (t : Timedelta)
  deriving Repr, DecidableEq

/-- Python exceptions raised by the code under study.  `dataValidationError`
is the custom `DataValidationError`; the rest are builtin exception classes
(message details of the builtins are not modelled). -/
inductive PyErr
  | dataValidationError (msg : String)
  | valueError
  | typeError
  | keyError (k : String)
  | indexError
  | attributeError
  | httpNotFound
  deriving Repr, DecidableEq

/-- Zero-pad a natural number to two digits (as `%02d`). -/
def natPad2 (n : Nat) : String :=
  if n < 10 then "0" ++ toString n else toString n

/-- Zero-pad a natural number to four digits (as `%04d`). -/
def natPad4 (n : Nat) : String :=
  if n < 10 then "000" ++ toString n
  else if n < 100 then "00" ++ toString n
  else if n < 1000 then "0" ++ toString n
  else toString n

/-- Python `str(timedelta)`: normalizes to `days` plus a second count in
`[0, 86400)`, renders `H:MM:SS`, and prefixes `<days> day(s), ` when the day
count is nonzero (`day` exactly when its absolute value is 1). -/
def timedeltaStr (t : Timedelta) : String :=
  let days : Int := Int.ediv t.seconds 86400
  let rem : Int := Int.emod t.seconds 86400
  let hh : Nat := (Int.ediv rem 3600).toNat
  let mm : Nat := (Int.emod (Int.ediv rem 60) 60).toNat
  let ss : Nat := (Int.emod rem 60).toNat
  let base : String := toString hh ++ ":" ++ natPad2 mm ++ ":" ++ natPad2 ss
  if days = 0 then base
  else
    toString days ++ (if days = 1 ∨ days = -1 then " day, " else " days, ") ++ base

/-- Python `str()` on the dynamic values of this service.  Only the `str` and
`td` branches are exercised by `serialize` on realistic data; the others are
included for totality. -/
def pyStr : PyVal → String
  | .pyNone => "None"
  | .int n => toString n
  | .str s => s
  | .bool b => if b then "True" else "False"
  | .date d => natPad4 d.year ++ "-" ++ natPad2 d.month ++ "-" ++ natPad2 d.day
  | .enumV t => "PromotionType." ++ t.name
  | .td t => timedeltaStr t

/-- Reading the `.name` attribute of a dynamic value: only enum members have
one; every other value raises `AttributeError`. -/
def pyName : PyVal → Except PyErr String
  | .enumV t => .ok t.name
  | _ => .error .attributeError

/-- The `Promotion` model object.  Attribute slots are dynamic (`PyVal`)
because Python assigns whatever `deserialize` received; a row coming from the
database has the typed shapes described by `isValidPromotion`. -/
structure PromotionObj where
  id : PyVal
  title : PyVal
  description : PyVal
  promo_code : PyVal
  promo_type : PyVal
  promo_value : PyVal
  start_date : PyVal
  created_date : PyVal
  duration : PyVal
  active : PyVal
  deriving Repr, DecidableEq

/-- A fresh `Promotion()` with no attribute set. -/
def freshPromotion : PromotionObj :=
  ⟨.pyNone, .pyNone, .pyNone, .pyNone, .pyNone, .pyNone, .pyNone, .pyNone, .pyNone, .pyNone⟩

/-- Shape of a fully typed, valid promotion: every field set with the declared
column type and `promo_type` one of the three enum members. -/
def isValidPromotion (p : PromotionObj) : Bool :=
  (match p.id with | .int _ => true | _ => false) &&
  (match p.title with | .str _ => true | _ => false) &&
  (match p.description with | .str _ => true | _ => false) &&
  (match p.promo_code with | .int _ => true | _ => false) &&
  (match p.promo_type with | .enumV _ => true | _ => false) &&
  (match p.promo_value with | .str _ => true | _ => false) &&
  (match p.start_date with | .date _ => true | _ => false) &&
  (match p.created_date with | .date _ => true | _ => false) &&
  (match p.duration with | .td _ => true | _ => false) &&
  (match p.active with | .bool _ => true | _ => false)

/-- `Promotion.serialize`: builds the dictionary in insertion order.  The
trailing `if self.id: promotion["id"] = self.id` of the source re-assigns the
key already present, so the mapping always carries `id` at its slot.
`promo_type.name` raises `AttributeError` when the attribute is not an enum
member, and `str()` is applied to `duration`. -/
def PromotionObj.serialize (p : PromotionObj) : Except PyErr (List (String × PyVal)) :=
  match pyName p.promo_type with
  | .error e => .error e
  | .ok nm =>
    .ok [("id", p.id), ("title", p.title), ("description", p.description),
         ("promo_code", p.promo_code), ("promo_type", .str nm),
         ("promo_value", p.promo_value), ("start_date", p.start_date),
         ("created_date", p.created_date), ("duration", .str (pyStr p.duration)),
         ("active", p.active)]

/-- Python `data[k]` on a dict, raising `KeyError` when the key is absent. -/
def dictGet (m : List (String × PyVal)) (k : String) : Except PyErr PyVal :=
  match m.find? (fun kv => kv.1 == k) with
  | some kv => .ok kv.2
  | Option.none => .error (.keyError k)

/-- A request body: either a mapping or something that is not one (subscripting
a non-mapping with a string key raises `TypeError`). -/
inductive Body
  | dict (m : List (String × PyVal))
  | notDict

/-- Lookup used inside `deserialize`: the surrounding `except KeyError` turns a
missing key into `DataValidationError("Invalid Promotion: missing <key>")`. -/
def reqKey (m : List (String × PyVal)) (k : String) : Except PyErr PyVal :=
  match m.find? (fun kv => kv.1 == k) with
  | some kv => .ok kv.2
  | Option.none => .error (.dataValidationError ("Invalid Promotion: missing " ++ k))

/-- `Promotion.deserialize`: reads the nine request keys in source order onto
`self` (the `id` attribute is not touched).  A non-mapping body raises
`TypeError`, re-raised as the malformed-body `DataValidationError` (the
source appends `str(error)`; the variable suffix is not modelled). -/
def PromotionObj.deserialize (self : PromotionObj) (data : Body) : Except PyErr PromotionObj :=
  match data with
  | .notDict => .error (.dataValidationError "Invalid Promotion: body of request contained bad or no data")
  | .dict m => do
    let title ← reqKey m "title"
    let description ← reqKey m "description"
    let promo_code ← reqKey m "promo_code"
    let promo_type ← reqKey m "promo_type"
    let promo_value ← reqKey m "promo_value"
    let start_date ← reqKey m "start_date"
    let created_date ← reqKey m "created_date"
    let duration ← reqKey m "duration"
    let active ← reqKey m "active"
    .ok { self with
      title := title, description := description, promo_code := promo_code,
      promo_type := promo_type, promo_value := promo_value,
      start_date := start_date, created_date := created_date,
      duration := duration, active := active }

/-- Leftover of `cs` after removing the prefix `sep`, `none` when `sep` is
not a prefix. -/
def dropSep : List Char → List Char → Option (List Char)
  | [], cs => some cs
  | _ :: _, [] => Option.none
  | s :: ss, c :: cs => if c = s then dropSep ss cs else Option.none

/-- Python `str.split(sep)` on character lists (left-to-right, non-overlapping,
empty pieces kept).  The fuel argument only drives the recursion; any fuel of
at least `cs.length + 1` gives the splitting (each step consumes at least one
character). -/
def splitSepFuel (sep : List Char) : Nat → List Char → List Char → List (List Char)
  | 0, cs, acc => [acc.reverse ++ cs]
  | fuel + 1, cs, acc =>
    match dropSep sep cs with
    | some rest => acc.reverse :: splitSepFuel sep fuel rest []
    | Option.none =>
      match cs with
      | [] => [acc.reverse]
      | c :: rest => splitSepFuel sep fuel rest (c :: acc)

/-- Python `s.split(sep)` for a non-empty separator. -/
def pySplit (s : String) (sep : String) : List String :=
  (splitSepFuel sep.data (s.data.length + 1) s.data []).map String.mk

/-- Split on whitespace characters, keeping empty pieces (as `s.split(f)`). -/
def splitWsAux : List Char → List Char → List (List Char)
  | [], acc => [acc.reverse]
  | c :: rest, acc =>
    if c.isWhitespace then acc.reverse :: splitWsAux rest []
    else splitWsAux rest (c :: acc)

/-- Strip leading and trailing whitespace. -/
def pyStrip (cs : List Char) : List Char :=
  ((cs.dropWhile Char.isWhitespace).reverse.dropWhile Char.isWhitespace).reverse

/-- Numeric value of a list of ASCII digits. -/
def digitsVal (cs : List Char) : Nat :=
  cs.foldl (fun a c => a * 10 + (c.toNat - 48)) 0

/-- No two consecutive underscores. -/
def noDoubleUnderscore : List Char → Bool
  | [] => true
  | [_] => true
  | a :: b :: rest => !(a == '_' && b == '_') && noDoubleUnderscore (b :: rest)

/-- Digit part accepted by Python `int()`: nonempty, ASCII digits possibly
separated by single underscores placed strictly between digits. -/
def pyIntDigitsOk (cs : List Char) : Bool :=
  !cs.isEmpty &&
  cs.all (fun c => c.isDigit || c == '_') &&
  (match cs.head? with | some c => c.isDigit | _ => false) &&
  (match cs.getLast? with | some c => c.isDigit | _ => false) &&
  noDoubleUnderscore cs

/-- Python `int(s)` on a string: surrounding whitespace stripped, optional
sign, then digits with optional single separating underscores; anything else
raises `ValueError`.  (Non-ASCII digits are not modelled.) -/
def pyInt (s : String) : Except PyErr Int :=
  let t := pyStrip s.data
  let (sign, ds) : Int × List Char :=
    match t with
    | '+' :: rest => (1, rest)
    | '-' :: rest => (-1, rest)
    | cs => (1, cs)
  if pyIntDigitsOk ds then
    .ok (sign * (digitsVal (ds.filter (fun c => c != '_')) : Int))
  else .error .valueError

/-- Python `s.split()[0]`: split on whitespace runs discarding empties; taking
element 0 of an empty result raises `IndexError`. -/
def pyFirstToken (s : String) : Except PyErr String :=
  match (splitWsAux s.data []).filter (fun w => !w.isEmpty) with
  | [] => .error .indexError
  | w :: _ => .ok (String.mk w)

/-- One numeric field of a `strptime` pattern such as `%H`: one or two ASCII
digits whose value is at most `maxV`. -/
def strptimeField (s : String) (maxV : Nat) : Option Nat :=
  let cs := s.toList
  if cs.length = 0 ∨ 2 < cs.length then Option.none
  else if cs.all Char.isDigit then
    let v := digitsVal cs
    if v ≤ maxV then some v else Option.none
  else Option.none

/-- `datetime.strptime(s, "%H:%M:%S")`, reduced to the (hour, minute, second)
triple: hour at most 23, minute at most 59, second at most 59, each written
with one or two digits, separated by literal colons consuming the whole
string.  (The `%S` pattern itself admits the leap-second values 60 and 61,
but the `datetime` constructor then raises `ValueError: second must be in
0..59`, so the call as a whole rejects them.) -/
def parseHMS (s : String) : Option (Nat × Nat × Nat) :=
  match pySplit s ":" with
  | [hs, ms, ss] => do
    let h ← strptimeField hs 23
    let m ← strptimeField ms 59
    let sec ← strptimeField ss 59
    some (h, m, sec)
  | _ => Option.none

/-- Four-digit year field of `strptime` (`%Y`), at least 1 for a valid
`datetime`. -/
def strptimeYear (s : String) : Option Nat :=
  let cs := s.toList
  if cs.length = 4 ∧ cs.all Char.isDigit ∧ 1 ≤ digitsVal cs then
    some (digitsVal cs)
  else Option.none

/-- Days in a month of the proleptic Gregorian calendar. -/
def daysInMonth (y m : Nat) : Nat :=
  if m = 2 then
    if y % 4 = 0 ∧ (y % 100 ≠ 0 ∨ y % 400 = 0) then 29 else 28
  else if m = 4 ∨ m = 6 ∨ m = 9 ∨ m = 11 then 30
  else 31

/-- `datetime.strptime(s, "%Y-%m-%d").date()`: four-digit year, one-or-two
digit month in `[1,12]` and day in `[1,31]`, and the day must exist in that
month; otherwise `ValueError`. -/
def parseDateYMD (s : String) : Except PyErr PyDate :=
  match pySplit s "-" with
  | [ys, ms, ds] =>
    match strptimeYear ys, strptimeField ms 12, strptimeField ds 31 with
    | some y, some m, some d =>
      if 1 ≤ m ∧ 1 ≤ d ∧ d ≤ daysInMonth y m then .ok ⟨y, m, d⟩
      else .error .valueError
    | _, _, _ => .error .valueError
  | _ => .error .valueError

/-- Argument of the Interval branch of `find_by_fields`: either already a
`timedelta` or a raw string. -/
inductive IntervalArg
  | td (t : Timedelta)
  | str (s : String)

/-- The duration coercion of `find_by_fields` (Interval branch): a `timedelta`
passes through; a string is split on `", "` into exactly a day part and a time
part (tuple unpacking raises `ValueError` otherwise), the first
whitespace-token of the day part is parsed with `int()`, the time part with
`strptime("%H:%M:%S")`, and the pieces are combined into
`timedelta(days, hours, minutes, seconds)`. -/
def parseDurationStr (s : String) : Except PyErr Timedelta :=
  match pySplit s ", " with
  | [daysPart, timePart] =>
    match pyFirstToken daysPart with
    | .error e => .error e
    | .ok tok =>
      match pyInt tok with
      | .error e => .error e
      | .ok days =>
        match parseHMS timePart with
        | Option.none => .error .valueError
        | some (h, m, sec) =>
          .ok ⟨days * 86400 + (h : Int) * 3600 + (m : Int) * 60 + (sec : Int)⟩
  | _ => .error .valueError

/-- The Interval branch entry point: a `timedelta` passes through, a string is
parsed. -/
def coerceInterval : IntervalArg → Except PyErr Timedelta
  | .td t => .ok t
  | .str s => parseDurationStr s

/-- The database columns of the `Promotion` model. -/
inductive FieldName
  | id | title | description | promo_code | promo_type | promo_value
  | start_date | created_date | duration | active
  deriving Repr, DecidableEq

/-- Column lookup by attribute name. -/
def fieldOf (s : String) : Option FieldName :=
  if s = "id" then some .id
  else if s = "title" then some .title
  else if s = "description" then some .description
  else if s = "promo_code" then some .promo_code
  else if s = "promo_type" then some .promo_type
  else if s = "promo_value" then some .promo_value
  else if s = "start_date" then some .start_date
  else if s = "created_date" then some .created_date
  else if s = "duration" then some .duration
  else if s = "active" then some .active
  else Option.none

/-- Non-column attributes of the `Promotion` class for which `hasattr` is also
true (methods and SQLAlchemy class attributes); reading `.type` on them raises
`AttributeError`. -/
def nonColumnAttrs : List String :=
  ["create", "update", "delete", "serialize", "deserialize", "remove_all",
   "all", "find", "find_by_title", "find_by_promo_code", "find_by_promo_type",
   "find_by_active", "find_by_fields", "query", "metadata"]

/-- Outcome of the `hasattr`/`getattr` step of `find_by_fields`. -/
inductive AttrKind
  | column (f : FieldName)
  | nonColumn
  | missing
  deriving Repr, DecidableEq

/-- Classify a query key against the `Promotion` class. -/
def attrKind (s : String) : AttrKind :=
  match fieldOf s with
  | some f => .column f
  | Option.none => if nonColumnAttrs.contains s then .nonColumn else .missing

/-- A coerced query value, as bound into the SQL equality filter. -/
inductive CoercedVal
  | int (n : Int)
  | str (s : String)
  | bool (b : Bool)
  | date (d : PyDate)
  | td (t : Timedelta)
  deriving Repr, DecidableEq

/-- Type-directed cast of `find_by_fields` for one column.  `id` and
`promo_code` are Integer columns, `active` is Boolean, the date columns parse
`YYYY-MM-DD`, `duration` is Interval; String columns and the Enum column take
the raw string unchanged (no Float column exists on this model, so that
branch of the source is dead). -/
def coerceField (f : FieldName) (v : String) : Except PyErr CoercedVal :=
  match f with
  | .id => (pyInt v).map .int
  | .promo_code => (pyInt v).map .int
  | .active => .ok (.bool (v.toLower == "true"))
  | .start_date => (parseDateYMD v).map .date
  | .created_date => (parseDateYMD v).map .date
  | .duration => (coerceInterval (.str v)).map .td
  | .title => .ok (.str v)
  | .description => .ok (.str v)
  | .promo_value => .ok (.str v)
  | .promo_type => .ok (.str v)

/-- The SQL equality predicate `column == coerced value` evaluated on a row.
The Enum column stores the member name, so comparing it with a string matches
rows whose member name equals that string. -/
def fieldPred (f : FieldName) (cv : CoercedVal) (p : PromotionObj) : Bool :=
  match f, cv with
  | .id, .int n => p.id == .int n
  | .promo_code, .int n => p.promo_code == .int n
  | .title, .str s => p.title == .str s
  | .description, .str s => p.description == .str s
  | .promo_value, .str s => p.promo_value == .str s
  | .promo_type, .str s =>
    (match p.promo_type with | .enumV t => t.name == s | _ => false)
  | .start_date, .date d => p.start_date == .date d
  | .created_date, .date d => p.created_date == .date d
  | .duration, .td t => p.duration == .td t
  | .active, .bool b => p.active == .bool b
  | _, _ => false

/-- The loop of `find_by_fields`: walk the query parameters in order, failing
on the first invalid attribute name or failed coercion, otherwise collecting
the (column, coerced value) equality constraints. -/
def buildConj : List (String × String) → Except PyErr (List (FieldName × CoercedVal))
  | [] => .ok []
  | (k, v) :: rest =>
    match attrKind k with
    | .missing =>
      .error (.dataValidationError ("Field " ++ k ++ " is not a valid attribute of Promotion."))
    | .nonColumn => .error .attributeError
    | .column f =>
      match coerceField f v with
      | .error e => .error e
      | .ok cv =>
        match buildConj rest with
        | .error e => .error e
        | .ok cs => .ok ((f, cv) :: cs)

/-- `Promotion.find_by_fields`: on success, `query.all()` returns exactly the
rows satisfying the conjunction of the accumulated equality filters; an error
raised in the loop aborts the call before any row is produced. -/
def find_by_fields (params : List (String × String)) (store : List PromotionObj) :
    Except PyErr (List PromotionObj) :=
  match buildConj params with
  | .error e => .error e
  | .ok cs => .ok (store.filter (fun p => cs.all (fun fc => fieldPred fc.1 fc.2 p)))

/-- `request.args.get(k)`: first value for the key, `None` when absent. -/
def getParam (args : List (String × String)) (k : String) : Option String :=
  (args.find? (fun kv => kv.1 == k)).map (fun kv => kv.2)

/-- Python truthiness of an optional string (`None` and `""` are falsy). -/
def strOptTruthy : Option String → Bool
  | Option.none => false
  | some s => !s.isEmpty

/-- Where `GET /promotions` sends a request. -/
inductive ListDispatch
  | byFields (params : List (String × String))
  | byTitle (t : String)
  | byPromoCode (s : String)
  | byPromoType (s : String)
  | byActive (s : String)
  | allPromotions
  deriving Repr, DecidableEq

/-- The dispatch of `PromotionCollection.get`: more than one query parameter
goes to `find_by_fields`; otherwise the first of title, promo_code,
promo_type, active whose value is truthy picks the single-field lookup, and
with none of them truthy every promotion is returned. -/
def listDispatch (args : List (String × String)) : ListDispatch :=
  if 1 < args.length then .byFields args
  else
    match getParam args "title", getParam args "promo_code",
          getParam args "promo_type", getParam args "active" with
    | title, promo_code, promo_type, active =>
      if strOptTruthy title then .byTitle (title.getD "")
      else if strOptTruthy promo_code then .byPromoCode (promo_code.getD "")
      else if strOptTruthy promo_type then .byPromoType (promo_type.getD "")
      else if strOptTruthy active then .byActive (active.getD "")
      else .allPromotions

/-- `Promotion.find_by_title` (exact match on the title column). -/
def find_by_title (t : String) (store : List PromotionObj) : List PromotionObj :=
  store.filter (fun p => p.title == .str t)

/-- `Promotion.find_by_promo_code`. -/
def find_by_promo_code (n : Int) (store : List PromotionObj) : List PromotionObj :=
  store.filter (fun p => p.promo_code == .int n)

/-- `Promotion.find_by_promo_type`. -/
def find_by_promo_type (t : PromotionType) (store : List PromotionObj) : List PromotionObj :=
  store.filter (fun p => p.promo_type == .enumV t)

/-- `Promotion.find_by_active`. -/
def find_by_active (b : Bool) (store : List PromotionObj) : List PromotionObj :=
  store.filter (fun p => p.active == .bool b)

/-- The record-producing part of `GET /promotions`: execute the dispatched
lookup, with the argument conversions performed by the route
(`int(promo_code)`, `PromotionType[promo_type.upper()]`,
`active.lower() == "true"`). -/
def listPromotions (args : List (String × String)) (store : List PromotionObj) :
    Except PyErr (List PromotionObj) :=
  match listDispatch args with
  | .byFields params => find_by_fields params store
  | .byTitle t => .ok (find_by_title t store)
  | .byPromoCode s =>
    match pyInt s with
    | .error e => .error e
    | .ok n => .ok (find_by_promo_code n store)
  | .byPromoType s =>
    match promotionTypeOfName s.toUpper with
    | some t => .ok (find_by_promo_type t store)
    | Option.none => .error (.keyError s.toUpper)
  | .byActive s => .ok (find_by_active (s.toLower == "true") store)
  | .allPromotions => .ok store

/-- The check of the `token_required` decorator: the configured `API_KEY` must
be truthy (set and non-empty) and equal to the `X-Api-Key` header value;
otherwise the request is answered with 401. -/
def token_check (configKey headerToken : Option String) : Bool :=
  strOptTruthy configKey && (configKey == headerToken)

/-- Python truthiness of a `PyVal`, used for `if not self.id`. -/
def pyTruthy : PyVal → Bool
  | .pyNone => false
  | .int n => n != 0
  | .str s => !s.isEmpty
  | .bool b => b
  | .date _ => true
  | .enumV _ => true
  | .td t => t.seconds != 0

/-- Result of `Promotion.update`: the exception outcome together with the
store contents after the call. -/
structure UpdateResult where
  outcome : Except PyErr Unit
  store : List PromotionObj

/-- Committing the session after mutating `p`: the stored row with `p`'s id
now holds `p`'s attribute values. -/
def commitUpdate (p : PromotionObj) (store : List PromotionObj) : List PromotionObj :=
  store.map (fun q => if q.id == p.id then p else q)

/-- `Promotion.update`: a falsy `id` raises `DataValidationError` before any
session operation; otherwise the session is committed. -/
def PromotionObj.update (p : PromotionObj) (store : List PromotionObj) : UpdateResult :=
  if pyTruthy p.id then ⟨.ok (), commitUpdate p store⟩
  else ⟨.error (.dataValidationError "Cannot update a Promotion without an ID."), store⟩

/-- `Promotion.find`: primary-key lookup. -/
def findPromotion (store : List PromotionObj) (pid : Int) : Option PromotionObj :=
  store.find? (fun p => p.id == .int pid)

/-- `PUT /promotions/(id)/activate` (`ToggleActivateResource.put`): find the
promotion (404 when absent), set its `active` attribute to `data["active"]`,
and commit via `Promotion.update`.  On success the route answers with the
updated record. -/
def toggleActivate (store : List PromotionObj) (pid : Int) (body : List (String × PyVal)) :
    Except PyErr (PromotionObj × List PromotionObj) :=
  match findPromotion store pid with
  | Option.none => .error .httpNotFound
  | some p =>
    match dictGet body "active" with
    | .error e => .error e
    | .ok v =>
      let p2 := { p with active := v }
      match p2.update store with
      | ⟨.ok _, store2⟩ => .ok (p2, store2)
      | ⟨.error e, _⟩ => .error e

deriving instance DecidableEq for Except

/-- The nine keys `deserialize` reads, in source order. -/
def requiredKeys : List String :=
  ["title", "description", "promo_code", "promo_type", "promo_value",
   "start_date", "created_date", "duration", "active"]

/-- First required key absent from the mapping, in the read order of
`deserialize`. -/
def firstMissingKey (m : List (String × PyVal)) : Option String :=
  requiredKeys.find? (fun k => (m.find? (fun kv => kv.1 == k)).isNone)

/-- One query parameter is acceptable to `find_by_fields`: its key names a
column and its value survives the type-directed cast. -/
def validParam (kv : String × String) : Bool :=
  match attrKind kv.1 with
  | .column f => (match coerceField f kv.2 with | .ok _ => true | .error _ => false)
  | _ => false

/-- The field=value equality predicate for one query parameter, evaluated on a
row (false when the key or value is unusable). -/
def pairMatches (p : PromotionObj) (kv : String × String) : Bool :=
  match attrKind kv.1 with
  | .column f =>
    (match coerceField f kv.2 with
     | .ok cv => fieldPred f cv p
     | .error _ => false)
  | _ => false

/-- Serialize, deserialize into a fresh Promotion, serialize again (the
round-trip of the spec). -/
def roundtripSerialize (p : PromotionObj) : Except PyErr (List (String × PyVal)) :=
  match p.serialize with
  | .error e => .error e
  | .ok m =>
    match freshPromotion.deserialize (.dict m) with
    | .error e => .error e
    | .ok q => q.serialize

/-- A concrete valid promotion used by witnesses. -/
def samplePromotion : PromotionObj :=
  ⟨.int 1, .str "Discount Deal", .str "Big sale", .int 12345, .enumV .AMOUNT_DISCOUNT,
   .str "20", .date ⟨2024, 10, 1⟩, .date ⟨2024, 9, 30⟩, .td ⟨864000⟩, .bool true⟩

/-- C3: coercion of a raw string against the Boolean column `active` never
raises and yields true exactly when the lower-cased string equals "true";
"TRUE" lower-cases to true, while "False" and arbitrary garbage give false. -/
theorem c3_boolean_coercion :
    (∀ s : String, coerceField .active s = .ok (.bool (s.toLower == "true"))) ∧
    (∀ (s : String) (store : List PromotionObj),
      find_by_fields [("active", s)] store =
        .ok (store.filter (fun p => p.active == .bool (s.toLower == "true")))) := by
  constructor
  · exact fun s => rfl
  · intro s store
    simp [find_by_fields, buildConj, attrKind, fieldOf, coerceField, fieldPred]

/-- C9: with no configured API key (unset, or set to the empty string) the
token check fails for every supplied header value, so every protected request
is answered 401 — including an empty header token against an empty configured
key. -/
theorem c9_no_configured_key (h : Option String) :
    token_check Option.none h = false ∧ token_check (some "") h = false :=
  ⟨rfl, rfl⟩

/-- C10: a single recognized query parameter with an empty value is falsy for
the route's dispatch, so the request returns the whole store instead of
filtering by the empty value. -/
theorem c10_empty_single_param_returns_all (store : List PromotionObj) :
    listPromotions [("title", "")] store = .ok store ∧
    listPromotions [("promo_code", "")] store = .ok store ∧
    listPromotions [("promo_type", "")] store = .ok store ∧
    listPromotions [("active", "")] store = .ok store :=
  ⟨rfl, rfl, rfl, rfl⟩

/-- C6: updating a promotion whose id is unset raises `DataValidationError`
before any session operation, and the store is unchanged by the failed call. -/
theorem c6_update_requires_id (p : PromotionObj) (store : List PromotionObj)
    (h : p.id = PyVal.pyNone) :
    (p.update store).outcome =
      .error (.dataValidationError "Cannot update a Promotion without an ID.") ∧
    (p.update store).store = store := by
  unfold PromotionObj.update
  rw [h]
  exact ⟨rfl, rfl⟩

/-- Witness for C6 at a concrete id-less promotion and one-row store. -/
theorem c6_update_requires_id_witness :
    (freshPromotion.update [samplePromotion]).outcome =
      .error (.dataValidationError "Cannot update a Promotion without an ID.") ∧
    (freshPromotion.update [samplePromotion]).store = [samplePromotion] :=
  c6_update_requires_id freshPromotion [samplePromotion] rfl

/-- Counterexample for C5: a request with exactly one query parameter `title`
present (with an empty value) is dispatched to find-all, not to the
single-field `find_by_title` lookup the claim requires. -/
theorem c5_dispatch_cex :
    listDispatch [("title", "")] = ListDispatch.allPromotions ∧
    decide (listDispatch [("title", "")] = ListDispatch.byTitle "") = false :=
  ⟨rfl, rfl⟩

/-- Helper: `request.args.get` on a single-parameter query string. -/
theorem getParam_singleton (k v q : String) :
    getParam [(k, v)] q = if k = q then some v else Option.none := by
  simp only [getParam, List.find?_cons, List.find?_nil]
  cases hkq : k == q with
  | false =>
    have hne : ¬ k = q := by simpa using hkq
    simp [hkq, hne]
  | true =>
    have heq : k = q := by simpa using hkq
    simp [hkq, heq]

/-- C5 (amended): more than one query parameter goes to `find_by_fields`; a
single parameter goes to the matching single-field lookup only when it is one
of title, promo_code, promo_type, active with a non-empty value; zero
parameters, or a single parameter that is unrecognized or has an empty value,
return all records. -/
theorem c5_dispatch_amended (args : List (String × String)) :
    (1 < args.length → listDispatch args = .byFields args) ∧
    listDispatch [] = .allPromotions ∧
    (∀ k v, listDispatch [(k, v)] =
      if k = "title" ∧ v ≠ "" then .byTitle v
      else if k = "promo_code" ∧ v ≠ "" then .byPromoCode v
      else if k = "promo_type" ∧ v ≠ "" then .byPromoType v
      else if k = "active" ∧ v ≠ "" then .byActive v
      else .allPromotions) := by
  refine ⟨?_, rfl, ?_⟩
  · intro h
    unfold listDispatch
    rw [if_pos h]
  · intro k v
    have hlen : ¬ (1 < [(k, v)].length) := by simp
    unfold listDispatch
    rw [if_neg hlen]
    rw [getParam_singleton, getParam_singleton, getParam_singleton, getParam_singleton]
    by_cases ht : k = "title" <;>
      by_cases hc : k = "promo_code" <;>
      by_cases hp : k = "promo_type" <;>
      by_cases ha : k = "active" <;>
      by_cases hv : v = "" <;>
      simp_all [strOptTruthy, String.isEmpty_iff]

/-- Witness for C5 (amended) at two concrete requests: two parameters go to
`find_by_fields`; a single non-empty `promo_code` goes to its lookup. -/
theorem c5_dispatch_amended_witness :
    listDispatch [("title", "x"), ("active", "true")] =
      .byFields [("title", "x"), ("active", "true")] ∧
    listDispatch [("promo_code", "12")] = .byPromoCode "12" :=
  ⟨(c5_dispatch_amended [("title", "x"), ("active", "true")]).1 (by decide),
   by
     rw [(c5_dispatch_amended []).2.2 "promo_code" "12"]
     decide⟩

/-- C8: a successful activate-toggle on an existing promotion only rewrites
the `active` attribute; id, title, description, promo_code, promo_type,
promo_value, start_date, created_date and duration keep their values, and the
store change is exactly the commit of that one record. -/
theorem c8_activate_changes_only_active (store : List PromotionObj) (pid : Int)
    (body : List (String × PyVal)) (p : PromotionObj) (v : PyVal)
    (hfind : findPromotion store pid = some p)
    (hbody : dictGet body "active" = .ok v)
    (hpid : pid ≠ 0) :
    ∃ p2, toggleActivate store pid body = .ok (p2, commitUpdate p2 store) ∧
      p2.active = v ∧ p2.id = p.id ∧ p2.title = p.title ∧
      p2.description = p.description ∧ p2.promo_code = p.promo_code ∧
      p2.promo_type = p.promo_type ∧ p2.promo_value = p.promo_value ∧
      p2.start_date = p.start_date ∧ p2.created_date = p.created_date ∧
      p2.duration = p.duration := by
  have hid : p.id = PyVal.int pid := by
    have hpred := List.find?_some hfind
    simpa [beq_iff_eq] using hpred
  have hup : ({ p with active := v } : PromotionObj).update store =
      ⟨.ok (), commitUpdate { p with active := v } store⟩ := by
    unfold PromotionObj.update
    rw [if_pos ?_]
    show pyTruthy ({ p with active := v } : PromotionObj).id = true
    simp [hid, pyTruthy, bne_iff_ne, hpid]
  refine ⟨{ p with active := v }, ?_, rfl, rfl, rfl, rfl, rfl, rfl, rfl, rfl, rfl, rfl⟩
  unfold toggleActivate
  rw [hfind, hbody]
  simp only [hup]

/-- Witness for C8 at a one-row store and a concrete request body. -/
theorem c8_activate_changes_only_active_witness :
    ∃ p2, toggleActivate [samplePromotion] 1 [("active", PyVal.bool false)] =
        .ok (p2, commitUpdate p2 [samplePromotion]) ∧
      p2.active = PyVal.bool false ∧ p2.id = samplePromotion.id ∧
      p2.title = samplePromotion.title ∧
      p2.description = samplePromotion.description ∧
      p2.promo_code = samplePromotion.promo_code ∧
      p2.promo_type = samplePromotion.promo_type ∧
      p2.promo_value = samplePromotion.promo_value ∧
      p2.start_date = samplePromotion.start_date ∧
      p2.created_date = samplePromotion.created_date ∧
      p2.duration = samplePromotion.duration :=
  c8_activate_changes_only_active [samplePromotion] 1 [("active", PyVal.bool false)]
    samplePromotion (PyVal.bool false) (by decide) (by decide) (by decide)

/-- Counterexample for C1: for a concrete valid promotion the round trip
Serialize-Deserialize-Serialize does not return Serialize(p); it raises
`AttributeError`, because `deserialize` leaves `promo_type` as the plain name
string and the second `serialize` reads `.name` on it. -/
theorem c1_roundtrip_cex :
    isValidPromotion samplePromotion = true ∧
    roundtripSerialize samplePromotion = .error .attributeError ∧
    decide (roundtripSerialize samplePromotion = samplePromotion.serialize) = false := by
  refine ⟨by decide, by decide, by decide⟩

/-- C1 (amended): for every valid promotion, serializing succeeds, and
deserializing the result into a fresh promotion succeeds and stores the
enumeration name string as `promo_type` and the canonical duration string as
`duration`; but serializing that fresh promotion again raises
`AttributeError` (a string has no `name`), so the round trip never yields a
mapping equal to the first serialization. -/
theorem c1_roundtrip_amended (p : PromotionObj) (h : isValidPromotion p = true) :
    ∃ t m q, p.promo_type = PyVal.enumV t ∧
      p.serialize = .ok m ∧
      freshPromotion.deserialize (.dict m) = .ok q ∧
      q.promo_type = PyVal.str t.name ∧
      q.duration = PyVal.str (pyStr p.duration) ∧
      q.serialize = .error .attributeError ∧
      roundtripSerialize p = .error .attributeError := by
  obtain ⟨t, ht⟩ : ∃ t, p.promo_type = PyVal.enumV t := by
    unfold isValidPromotion at h
    cases hpt : p.promo_type <;> rw [hpt] at h <;> simp_all
  have hser : p.serialize =
      .ok [("id", p.id), ("title", p.title), ("description", p.description),
        ("promo_code", p.promo_code), ("promo_type", .str t.name),
        ("promo_value", p.promo_value), ("start_date", p.start_date),
        ("created_date", p.created_date), ("duration", .str (pyStr p.duration)),
        ("active", p.active)] := by
    unfold PromotionObj.serialize
    rw [ht]
    rfl
  refine ⟨t, _, _, ht, hser, rfl, rfl, rfl, rfl, ?_⟩
  unfold roundtripSerialize
  rw [hser]
  rfl

/-- Witness for C1 (amended) at a concrete valid promotion. -/
theorem c1_roundtrip_amended_witness :
    ∃ t m q, samplePromotion.promo_type = PyVal.enumV t ∧
      samplePromotion.serialize = .ok m ∧
      freshPromotion.deserialize (.dict m) = .ok q ∧
      q.promo_type = PyVal.str t.name ∧
      q.duration = PyVal.str (pyStr samplePromotion.duration) ∧
      q.serialize = .error .attributeError ∧
      roundtripSerialize samplePromotion = .error .attributeError :=
  c1_roundtrip_amended samplePromotion (by decide)

/-- Helper: the missing-key error message never equals the malformed-body
message (they differ at the 20th character). -/
theorem missingMsg_ne_malformedMsg (k : String) :
    decide (("Invalid Promotion: missing " ++ k : String) =
      "Invalid Promotion: body of request contained bad or no data") = false := by
  rw [decide_eq_false_iff_not]
  intro hEq
  have hd : ("Invalid Promotion: missing " : String).data ++ k.data =
      ("Invalid Promotion: body of request contained bad or no data" : String).data := by
    rw [← String.data_append, hEq]
  have ht := congrArg (List.take 27) hd
  rw [List.take_append_of_le_length (by decide)] at ht
  exact absurd ht (by decide)

/-- Helper: `deserialize` on a mapping either succeeds (no required key
missing) or fails naming the first missing key in read order. -/
theorem deserialize_dict_cases (self : PromotionObj) (m : List (String × PyVal)) :
    (firstMissingKey m = Option.none ∧ ∃ q, self.deserialize (.dict m) = .ok q) ∨
    (∃ k, firstMissingKey m = some k ∧
      self.deserialize (.dict m) =
        .error (.dataValidationError ("Invalid Promotion: missing " ++ k))) := by
  unfold PromotionObj.deserialize firstMissingKey requiredKeys
  cases h1 : m.find? (fun kv => kv.1 == "title") with
  | none =>
    right
    refine ⟨"title", ?_, ?_⟩
    · simp [List.find?, h1]
    · simp [reqKey, h1, Bind.bind, Except.bind]
  | some kv1 =>
    cases h2 : m.find? (fun kv => kv.1 == "description") with
    | none =>
      right
      refine ⟨"description", ?_, ?_⟩
      · simp [List.find?, h1, h2]
      · simp [reqKey, h1, h2, Bind.bind, Except.bind]
    | some kv2 =>
      cases h3 : m.find? (fun kv => kv.1 == "promo_code") with
      | none =>
        right
        refine ⟨"promo_code", ?_, ?_⟩
        · simp [List.find?, h1, h2, h3]
        · simp [reqKey, h1, h2, h3, Bind.bind, Except.bind]
      | some kv3 =>
        cases h4 : m.find? (fun kv => kv.1 == "promo_type") with
        | none =>
          right
          refine ⟨"promo_type", ?_, ?_⟩
          · simp [List.find?, h1, h2, h3, h4]
          · simp [reqKey, h1, h2, h3, h4, Bind.bind, Except.bind]
        | some kv4 =>
          cases h5 : m.find? (fun kv => kv.1 == "promo_value") with
          | none =>
            right
            refine ⟨"promo_value", ?_, ?_⟩
            · simp [List.find?, h1, h2, h3, h4, h5]
            · simp [reqKey, h1, h2, h3, h4, h5, Bind.bind, Except.bind]
          | some kv5 =>
            cases h6 : m.find? (fun kv => kv.1 == "start_date") with
            | none =>
              right
              refine ⟨"start_date", ?_, ?_⟩
              · simp [List.find?, h1, h2, h3, h4, h5, h6]
              · simp [reqKey, h1, h2, h3, h4, h5, h6, Bind.bind, Except.bind]
            | some kv6 =>
              cases h7 : m.find? (fun kv => kv.1 == "created_date") with
              | none =>
                right
                refine ⟨"created_date", ?_, ?_⟩
                · simp [List.find?, h1, h2, h3, h4, h5, h6, h7]
                · simp [reqKey, h1, h2, h3, h4, h5, h6, h7, Bind.bind, Except.bind]
              | some kv7 =>
                cases h8 : m.find? (fun kv => kv.1 == "duration") with
                | none =>
                  right
                  refine ⟨"duration", ?_, ?_⟩
                  · simp [List.find?, h1, h2, h3, h4, h5, h6, h7, h8]
                  · simp [reqKey, h1, h2, h3, h4, h5, h6, h7, h8, Bind.bind, Except.bind]
                | some kv8 =>
                  cases h9 : m.find? (fun kv => kv.1 == "active") with
                  | none =>
                    right
                    refine ⟨"active", ?_, ?_⟩
                    · simp [List.find?, h1, h2, h3, h4, h5, h6, h7, h8, h9]
                    · simp [reqKey, h1, h2, h3, h4, h5, h6, h7, h8, h9, Bind.bind, Except.bind]
                  | some kv9 =>
                    left
                    constructor
                    · simp [List.find?, h1, h2, h3, h4, h5, h6, h7, h8, h9]
                    · simp only [reqKey, h1, h2, h3, h4, h5, h6, h7, h8, h9,
                        Bind.bind, Except.bind]
                      exact ⟨_, rfl⟩

/-- C7: every one of the nine required keys must be present; a missing key
fails with the missing-field error naming the first missing key in read
order; a non-mapping body fails with the distinct malformed-body error. -/
theorem c7_deserialize_required_keys (self : PromotionObj) (m : List (String × PyVal)) :
    (firstMissingKey m = Option.none → ∃ q, self.deserialize (.dict m) = .ok q) ∧
    (∀ k, firstMissingKey m = some k →
      self.deserialize (.dict m) =
        .error (.dataValidationError ("Invalid Promotion: missing " ++ k))) ∧
    self.deserialize .notDict =
      .error (.dataValidationError "Invalid Promotion: body of request contained bad or no data") ∧
    (∀ k, decide (("Invalid Promotion: missing " ++ k : String) =
      "Invalid Promotion: body of request contained bad or no data") = false) := by
  obtain ⟨hnone, q, hq⟩ | ⟨k0, hk0, herr⟩ := deserialize_dict_cases self m
  · refine ⟨fun _ => ⟨q, hq⟩, ?_, rfl, missingMsg_ne_malformedMsg⟩
    intro k hk
    rw [hnone] at hk
    cases hk
  · refine ⟨?_, ?_, rfl, missingMsg_ne_malformedMsg⟩
    · intro hn
      rw [hn] at hk0
      cases hk0
    · intro k hk
      rw [hk0] at hk
      injection hk with hkk
      rw [← hkk]
      exact herr

/-- Witness for C7: a mapping missing `promo_code` (its first absent key) and
one with all nine keys. -/
theorem c7_deserialize_required_keys_witness :
    freshPromotion.deserialize (.dict [("title", .str "a"), ("description", .str "b")]) =
      .error (.dataValidationError ("Invalid Promotion: missing " ++ "promo_code")) ∧
    (∃ q, freshPromotion.deserialize (.dict [("title", .str "a"), ("description", .str "b"),
      ("promo_code", .int 1), ("promo_type", .str "BUY_ONE_GET_ONE"), ("promo_value", .str "5"),
      ("start_date", .date ⟨2024, 1, 2⟩), ("created_date", .date ⟨2024, 1, 1⟩),
      ("duration", .str "1 day, 0:00:00"), ("active", .bool true)]) = .ok q) :=
  ⟨(c7_deserialize_required_keys freshPromotion _).2.1 "promo_code" (by decide),
   (c7_deserialize_required_keys freshPromotion _).1 (by decide)⟩

/-- C4: the Interval coercion passes a timedelta value through unchanged; a
string succeeds exactly when it splits on `", "` into a day part and a time
part, the first whitespace token of the day part parses as a Python int, and
the time part parses as H:MM:SS — the result combining days, hours, minutes
and seconds; a string with no `", "` separator (such as the rendering of a
sub-one-day duration) raises a parse error. -/
theorem c4_interval_coercion :
    (∀ t, coerceInterval (.td t) = .ok t) ∧
    (∀ s out, coerceInterval (.str s) = .ok out ↔
      ∃ p1 p2 tok days h m sec,
        pySplit s ", " = [p1, p2] ∧
        pyFirstToken p1 = .ok tok ∧
        pyInt tok = .ok days ∧
        parseHMS p2 = some (h, m, sec) ∧
        out = ⟨days * 86400 + (h : Int) * 3600 + (m : Int) * 60 + (sec : Int)⟩) ∧
    (∀ s, pySplit s ", " = [s] → coerceInterval (.str s) = .error .valueError) := by
  refine ⟨fun t => rfl, ?_, ?_⟩
  · intro s out
    constructor
    · intro hok
      rw [show coerceInterval (IntervalArg.str s) = parseDurationStr s from rfl] at hok
      unfold parseDurationStr at hok
      rcases hsp : pySplit s ", " with _ | ⟨p1, _ | ⟨p2, _ | ⟨p3, rest⟩⟩⟩ <;>
        rw [hsp] at hok <;> try simp at hok
      cases htok : pyFirstToken p1 with
      | error e => simp [htok] at hok
      | ok tok =>
        simp only [htok] at hok
        cases hint : pyInt tok with
        | error e => simp [hint] at hok
        | ok days =>
          simp only [hint] at hok
          cases hhms : parseHMS p2 with
          | none => simp [hhms] at hok
          | some hms =>
            obtain ⟨h, m, sec⟩ := hms
            simp only [hhms, Except.ok.injEq] at hok
            exact ⟨p1, p2, tok, days, h, m, sec, rfl, htok, hint, hhms, hok.symm⟩
    · rintro ⟨p1, p2, tok, days, h, m, sec, hsp, htok, hint, hhms, hout⟩
      subst hout
      rw [show coerceInterval (IntervalArg.str s) = parseDurationStr s from rfl]
      unfold parseDurationStr
      simp only [hsp, htok, hint, hhms]
  · intro s hs
    rw [show coerceInterval (IntervalArg.str s) = parseDurationStr s from rfl]
    unfold parseDurationStr
    rw [hs]

/-- Witness for C4: a concrete well-formed rendering and a concrete
separator-free rendering. -/
theorem c4_interval_coercion_witness :
    coerceInterval (.str "2 days, 3:04:05") = .ok ⟨183845⟩ ∧
    coerceInterval (.str "3:04:05") = .error .valueError :=
  ⟨(c4_interval_coercion.2.1 "2 days, 3:04:05" ⟨183845⟩).mpr
      ⟨"2 days", "3:04:05", "2", 2, 3, 4, 5, by decide, by decide, by decide,
       by decide, by decide⟩,
   c4_interval_coercion.2.2 "3:04:05" (by decide)⟩

/-- Helper: when every query parameter names a column and its value coerces,
the filter loop succeeds and the collected constraints evaluate on each row as
the conjunction of the per-parameter equality predicates. -/
theorem buildConj_ok_of_valid (params : List (String × String))
    (h : ∀ kv ∈ params, validParam kv = true) :
    ∃ cs, buildConj params = .ok cs ∧
      ∀ p, (cs.all fun fc => fieldPred fc.1 fc.2 p) = params.all (pairMatches p) := by
  induction params with
  | nil => exact ⟨[], rfl, fun p => rfl⟩
  | cons kv0 rest ih =>
    obtain ⟨k, v⟩ := kv0
    have hhead := h (k, v) (List.mem_cons_self _ _)
    have htail : ∀ kv ∈ rest, validParam kv = true :=
      fun kv hkv => h kv (List.mem_cons_of_mem _ hkv)
    obtain ⟨cs, hcs, hall⟩ := ih htail
    simp only [validParam] at hhead
    cases hak : attrKind k with
    | missing => rw [hak] at hhead; simp at hhead
    | nonColumn => rw [hak] at hhead; simp at hhead
    | column f =>
      simp only [hak] at hhead
      cases hcf : coerceField f v with
      | error e => rw [hcf] at hhead; simp at hhead
      | ok cv =>
        refine ⟨(f, cv) :: cs, ?_, ?_⟩
        · unfold buildConj
          simp only [hak, hcf, hcs]
        · intro p
          simp only [List.all_cons, hall p, pairMatches, hak, hcf]

/-- Helper: one bad query parameter (unknown attribute or failed coercion)
makes the whole filter loop raise, wherever it sits in the mapping. -/
theorem buildConj_error_of_invalid (params : List (String × String))
    (h : ∃ kv ∈ params, validParam kv = false) :
    ∃ e, buildConj params = .error e := by
  induction params with
  | nil =>
    obtain ⟨kv, hmem, _⟩ := h
    cases hmem
  | cons kv0 rest ih =>
    obtain ⟨k, v⟩ := kv0
    unfold buildConj
    cases hak : attrKind k with
    | missing => simp only [hak]; exact ⟨_, rfl⟩
    | nonColumn => simp only [hak]; exact ⟨_, rfl⟩
    | column f =>
      cases hcf : coerceField f v with
      | error e => simp only [hak, hcf]; exact ⟨e, rfl⟩
      | ok cv =>
        have hrest : ∃ kv ∈ rest, validParam kv = false := by
          obtain ⟨kv, hmem, hbad⟩ := h
          rcases List.mem_cons.mp hmem with heq | hmem2
          · subst heq
            simp [validParam, hak, hcf] at hbad
          · exact ⟨kv, hmem2, hbad⟩
        obtain ⟨e, he⟩ := ih hrest
        simp only [hak, hcf, he]
        exact ⟨e, rfl⟩

/-- C2: `find_by_fields` is all-or-nothing: if every key names a column and
every value coerces, it returns exactly the rows satisfying the conjunction
(logical AND) of the field=value equality predicates; if any key is invalid or
any value fails coercion, the whole call raises and no result set is
produced. -/
theorem c2_find_by_fields_all_or_nothing (params : List (String × String))
    (store : List PromotionObj) :
    ((∀ kv ∈ params, validParam kv = true) →
      find_by_fields params store =
        .ok (store.filter fun p => params.all (pairMatches p))) ∧
    ((∃ kv ∈ params, validParam kv = false) →
      ∃ e, find_by_fields params store = .error e) := by
  constructor
  · intro h
    obtain ⟨cs, hcs, hall⟩ := buildConj_ok_of_valid params h
    unfold find_by_fields
    have hfun : (fun p => cs.all fun fc => fieldPred fc.1 fc.2 p) =
        (fun p => params.all (pairMatches p)) := funext hall
    simp only [hcs, hfun]
  · intro h
    obtain ⟨e, he⟩ := buildConj_error_of_invalid params h
    unfold find_by_fields
    rw [he]
    exact ⟨e, rfl⟩

/-- Witness for C2: a fully valid two-parameter query returns the conjunction
filter; a query containing an unknown field name fails whole. -/
theorem c2_find_by_fields_all_or_nothing_witness :
    find_by_fields [("active", "true"), ("promo_code", "12345")] [samplePromotion] =
      .ok ([samplePromotion].filter fun p =>
        [("active", "true"), ("promo_code", "12345")].all (pairMatches p)) ∧
    (∃ e, find_by_fields [("bogus", "1")] [samplePromotion] = .error e) :=
  ⟨(c2_find_by_fields_all_or_nothing _ _).1 (by decide),
   (c2_find_by_fields_all_or_nothing _ _).2 ⟨("bogus", "1"), by decide, by decide⟩⟩
